import Mathlib

/-!
Verification of the asynchronous state-synchronization layer of
`topiq-explorer` (`src/stores/topic.store.ts`) and its encrypted
connection-profile store (`electron/services/connection.store.ts`).

The JavaScript runtime is single-threaded and cooperative: an `async`
function runs without preemption between `await` boundaries, and the only
`await`s in the store operations are the remote IPC calls.  Every store
operation therefore decomposes into at most two atomic steps: an *invoke*
step (everything up to the remote call) and a *settle* step (everything
after the remote promise settles).  We embed each step as a pure function
on an explicit global state; interleavings of concurrent operations are
sequences of such steps.  The settlement of the remote promise itself is
an environment input, modelled as `Except String r` where `.error e`
means the remote promise rejected with an error whose message is `e`.

A caller-visible rejection of the promise returned by a store operation is
the second component of the step result (`Option String`): `none` means the
returned promise resolves, `some m` means it rejects with message `m`.
-/

/-- Modelled from the spec: `TopicMetadata` lives in `src/types/kafka.types`,
which is not part of the reviewed sources.  Per spec §3 it is a structured
description of partitions / replicas / leader assignment; its internal
structure is irrelevant to every claim, only equality of values matters. -/
structure PartitionInfo where
  partitionId : Nat
  leader : Int
  replicas : List Int
deriving DecidableEq, Repr

/-- Modelled from the spec: structured topic description (spec §3). -/
structure TopicMetadata where
  name : String
  partitions : List PartitionInfo
deriving DecidableEq, Repr

/-- Modelled from the spec: a key/value configuration entry (spec §3). -/
structure ConfigEntry where
  configName : String
  configValue : String
deriving DecidableEq, Repr

/-- Modelled from the spec: a consumed record (spec §3); only equality of
values matters for the claims. -/
structure KafkaMessage where
  partition : Nat
  offset : Nat
  key : Option String
  value : String
  timestamp : String
deriving DecidableEq, Repr

/-- From `topic.store.ts` lines 4-9. -/
structure MessageToRepublish where
  key : Option String
  value : String
  headers : Option (List (String × String))
  partition : Option Nat
deriving DecidableEq, Repr

/-- The observable zustand state of `useTopicStore` (`topic.store.ts`
lines 16-28 and the initial values at lines 45-56). -/
structure TopicState where
  topics : List String
  selectedTopic : Option String
  topicMetadata : Option TopicMetadata
  topicConfig : List ConfigEntry
  messages : List KafkaMessage
  messageToRepublish : Option MessageToRepublish
  isLoading : Bool
  isLoadingTopics : Bool
  isLoadingMetadata : Bool
  isLoadingConfig : Bool
  isLoadingMessages : Bool
  error : Option String
deriving DecidableEq, Repr

/-- Initial zustand state, `topic.store.ts` lines 45-56. -/
def initialTopicState : TopicState :=
  { topics := []
    selectedTopic := none
    topicMetadata := none
    topicConfig := []
    messages := []
    messageToRepublish := none
    isLoading := false
    isLoadingTopics := false
    isLoadingMetadata := false
    isLoadingConfig := false
    isLoadingMessages := false
    error := none }

/-- The module-level mutable context of `topic.store.ts`: the zustand state
plus `messageRequestId` (line 12) and the `inFlightRequests` map (line 14).
`inFlight` maps a request key to the identity of the pending promise stored
under it; `nextPromise` supplies fresh promise identities.  `physicalCalls`
is a ghost counter of physical remote `getTopics` calls issued, used to
state the deduplication guarantee. -/
structure GlobalState where
  state : TopicState
  messageRequestId : Nat
  inFlight : List (String × Nat)
  nextPromise : Nat
  physicalCalls : Nat
deriving DecidableEq, Repr

/-- Initial module-level context. -/
def initialGlobal : GlobalState :=
  { state := initialTopicState
    messageRequestId := 0
    inFlight := []
    nextPromise := 0
    physicalCalls := 0 }

/-- Dynamic result value of `window.api.kafka.getTopics`, as discriminated
by `loadTopics` (`topic.store.ts` lines 67-78 — the code first tests
`'success' in result`, otherwise casts the value to `string[]`):
`outcome` is the standardized record `{ success, data?, error? }`;
`arr` is a value that really is an array of strings;
`holder` is any other object (e.g. a payload held under a field such as
`data`, without a `success` flag) — the cast to `string[]` succeeds
but the subsequent `.sort()` call throws a `TypeError` at line 79. -/
inductive TopicsIpc where
  | outcome (success : Bool) (data : Option (List String)) (err : Option String)
  | arr (topics : List String)
  | holder (data : List String)
deriving DecidableEq, Repr

/-- `data` payload of a successful `getMessages` outcome record
(`{ messages, hasMore, nextOffset }`, of which only `messages` is read,
`topic.store.ts` line 205). -/
structure MessagesData where
  messages : List KafkaMessage
deriving DecidableEq, Repr

/-- Dynamic result value of `window.api.kafka.getMessages`, as discriminated
by `loadMessages` (`topic.store.ts` lines 199-215): the standardized
record, a bare array (legacy), or any other value, from which the
payload is read off the `messages` field (`result?.messages ?? []`). -/
inductive MessagesIpc where
  | outcome (success : Bool) (data : Option MessagesData) (err : Option String)
  | arr (messages : List KafkaMessage)
  | holder (messages : Option (List KafkaMessage))
deriving DecidableEq, Repr

/-- Dynamic result value of `getTopicMetadata` (`topic.store.ts`
lines 102-110): standardized record or bare payload. -/
inductive MetadataIpc where
  | outcome (success : Bool) (data : Option TopicMetadata) (err : Option String)
  | bare (m : TopicMetadata)
deriving DecidableEq, Repr

/-- Dynamic result value of `getTopicConfig` (`topic.store.ts`
lines 123-131): standardized record or bare payload. -/
inductive ConfigIpc where
  | outcome (success : Bool) (data : Option (List ConfigEntry)) (err : Option String)
  | arr (config : List ConfigEntry)
deriving DecidableEq, Repr

/-- Dynamic result value of `createTopic` / `deleteTopic` /
`produceMessage`: a standardized record, or any other value, which the
code treats as success (`topic.store.ts` lines 143-148). -/
inductive MutationIpc where
  | outcome (success : Bool) (err : Option String)
  | other
deriving DecidableEq, Repr

/-- JavaScript `Array.prototype.sort()` on an array of strings: an
ascending lexicographic sort (insertion sort; only the ordering produced
matters, not the algorithm). -/
def insertSorted (s : String) : List String → List String
  | [] => [s]
  | t :: ts => if s ≤ t then s :: t :: ts else t :: insertSorted s ts

/-- `topics.sort()` at `topic.store.ts` lines 79 and 160. -/
def sortStrings : List String → List String
  | [] => []
  | t :: ts => insertSorted t (sortStrings ts)

/-- `` `loadTopics:${connectionId}` ``, `topic.store.ts` line 60. -/
def requestKeyFor (connectionId : String) : String :=
  "loadTopics:" ++ connectionId

/-- `loadTopics` up to its suspension point (`topic.store.ts` lines 58-90):
look up the in-flight map; on a hit return the existing pending promise
without issuing a call; otherwise start `doLoad` (set loading flags, clear
the error, issue the physical remote call) and register the new promise
under the key.  Returns (new context, promise identity handed to the
caller, whether a fresh physical call was issued). -/
def loadTopicsInvoke (g : GlobalState) (connectionId : String) :
    GlobalState × Nat × Bool :=
  let key := requestKeyFor connectionId
  match g.inFlight.lookup key with
  | some p => (g, p, false)
  | none =>
      let p := g.nextPromise
      ({ g with
          state := { g.state with
            isLoadingTopics := true, isLoading := true, error := none }
          inFlight := (key, p) :: g.inFlight
          nextPromise := p + 1
          physicalCalls := g.physicalCalls + 1 }, p, true)

/-- Normalization of a `getTopics` result (`topic.store.ts` lines 69-78,
shared verbatim by `createTopic` lines 150-159): `.error` is the message
of the `Error` thrown inside the `try` block. The `holder` case throws at
the `.sort()` call on a non-array (line 79 / 160). -/
def topicsOfIpc : TopicsIpc → Except String (List String)
  | .outcome true data _ => .ok (data.getD [])
  | .outcome false _ err => .error (err.getD "Failed to load topics")
  | .arr ts => .ok ts
  | .holder _ => .error "topics.sort is not a function"

/-- `loadTopics` from the settlement of the remote promise to the end
(`topic.store.ts` lines 68-84): normalize, commit the sorted list or
record the error, and in the `finally` block delete the request key from
the in-flight map.  The catch block does not re-throw, so the promise
returned to the caller always resolves (second component `none`). -/
def loadTopicsSettle (g : GlobalState) (connectionId : String)
    (res : Except String TopicsIpc) : GlobalState × Option String :=
  let key := requestKeyFor connectionId
  let remaining := g.inFlight.filter (fun e => e.1 != key)
  match (do topicsOfIpc (← res) : Except String (List String)) with
  | .ok ts =>
      ({ g with
          state := { g.state with
            topics := sortStrings ts, isLoadingTopics := false, isLoading := false }
          inFlight := remaining }, none)
  | .error msg =>
      ({ g with
          state := { g.state with
            error := some msg, isLoadingTopics := false, isLoading := false }
          inFlight := remaining }, none)

/-- A complete `loadTopics` call with no interleaved operation: invoke,
then settle with the given remote result. -/
def loadTopicsRun (g : GlobalState) (connectionId : String)
    (res : Except String TopicsIpc) : GlobalState × Option String :=
  let (g1, _, issued) := loadTopicsInvoke g connectionId
  if issued then loadTopicsSettle g1 connectionId res else (g1, none)

/-- `selectTopic` (`topic.store.ts` lines 92-94): one synchronous zustand
`set` call, i.e. a single atomic state transition. -/
def selectTopic (s : TopicState) (topic : Option String) : TopicState :=
  { s with selectedTopic := topic, topicMetadata := none
           topicConfig := [], messages := [] }

/-- `loadMessages` up to its suspension point (`topic.store.ts`
lines 190-193): increment the module-level `messageRequestId`, remember
the new value as this call's fencing token, set the loading flag and
clear the error.  Returns (new context, token). -/
def loadMessagesInvoke (g : GlobalState) : GlobalState × Nat :=
  let rid := g.messageRequestId + 1
  ({ g with
      messageRequestId := rid
      state := { g.state with isLoadingMessages := true, error := none } }, rid)

/-- `loadMessages` from the settlement of the remote promise to the end
(`topic.store.ts` lines 195-220).  Both on fulfilment and on rejection the
code first compares the call's token with the current `messageRequestId`
and returns without touching state when they differ (lines 197 and 218);
otherwise it normalizes the three result shapes or records the error.
Neither path re-throws, so the returned promise always resolves. -/
def loadMessagesSettle (g : GlobalState) (token : Nat)
    (res : Except String MessagesIpc) : GlobalState × Option String :=
  if token ≠ g.messageRequestId then (g, none)
  else
    match res with
    | .ok (.outcome true data _) =>
        ({ g with state := { g.state with
            messages := (data.map MessagesData.messages).getD []
            isLoadingMessages := false } }, none)
    | .ok (.outcome false _ err) =>
        ({ g with state := { g.state with
            error := some (err.getD "Failed to load messages")
            isLoadingMessages := false } }, none)
    | .ok (.arr msgs) =>
        ({ g with state := { g.state with
            messages := msgs, isLoadingMessages := false } }, none)
    | .ok (.holder msgs) =>
        ({ g with state := { g.state with
            messages := msgs.getD [], isLoadingMessages := false } }, none)
    | .error e =>
        ({ g with state := { g.state with
            error := some e, isLoadingMessages := false } }, none)

/-- A complete `loadMessages` call with no interleaved operation. -/
def loadMessagesRun (g : GlobalState) (res : Except String MessagesIpc) :
    GlobalState × Option String :=
  let (g1, token) := loadMessagesInvoke g
  loadMessagesSettle g1 token res

/-- A complete `loadTopicMetadata` call (`topic.store.ts` lines 96-115):
set the loading flag and clear the error, then on settlement normalize the
two shapes or record the error.  On `success=true` the code commits
`typedResult.data!`; the non-null assertion is erased at runtime, so a
missing `data` commits `undefined` (here: the option itself).  The catch
block does not re-throw. -/
def loadTopicMetadataRun (g : GlobalState) (res : Except String MetadataIpc) :
    GlobalState × Option String :=
  let s1 := { g.state with isLoadingMetadata := true, error := none }
  match res with
  | .ok (.outcome true data _) =>
      ({ g with state := { s1 with
          topicMetadata := data, isLoadingMetadata := false } }, none)
  | .ok (.outcome false _ err) =>
      ({ g with state := { s1 with
          error := some (err.getD "Failed to load topic metadata")
          isLoadingMetadata := false } }, none)
  | .ok (.bare m) =>
      ({ g with state := { s1 with
          topicMetadata := some m, isLoadingMetadata := false } }, none)
  | .error e =>
      ({ g with state := { s1 with
          error := some e, isLoadingMetadata := false } }, none)

/-- A complete `loadTopicConfig` call (`topic.store.ts` lines 117-136).
The catch block does not re-throw. -/
def loadTopicConfigRun (g : GlobalState) (res : Except String ConfigIpc) :
    GlobalState × Option String :=
  let s1 := { g.state with isLoadingConfig := true, error := none }
  match res with
  | .ok (.outcome true data _) =>
      ({ g with state := { s1 with
          topicConfig := data.getD [], isLoadingConfig := false } }, none)
  | .ok (.outcome false _ err) =>
      ({ g with state := { s1 with
          error := some (err.getD "Failed to load topic config")
          isLoadingConfig := false } }, none)
  | .ok (.arr cfg) =>
      ({ g with state := { s1 with
          topicConfig := cfg, isLoadingConfig := false } }, none)
  | .error e =>
      ({ g with state := { s1 with
          error := some e, isLoadingConfig := false } }, none)

/-- Outcome check applied to a `createTopic` / `deleteTopic` /
`produceMessage` result (`topic.store.ts` lines 143-148): a standardized
record with `success=false` throws; anything else passes. -/
def checkMutation (defaultMsg : String) : MutationIpc → Except String Unit
  | .outcome false err => .error (err.getD defaultMsg)
  | .outcome true _ => .ok ()
  | .other => .ok ()

/-- A complete `createTopic` call (`topic.store.ts` lines 138-165):
set flags and clear the error; await `createTopic` (result `res1`), check
it; await `getTopics` (result `res2`), normalize and commit the sorted
list.  The catch block records the error message and re-throws
(`throw error`, line 163), so on any failure the returned promise rejects
(`some msg`).  When `res1` fails, the second remote call is never made and
`res2` is irrelevant. -/
def createTopicRun (g : GlobalState) (res1 : Except String MutationIpc)
    (res2 : Except String TopicsIpc) : GlobalState × Option String :=
  let s1 := { g.state with isLoadingTopics := true, isLoading := true, error := none }
  let outcome : Except String (List String) := do
    checkMutation "Failed to create topic" (← res1)
    topicsOfIpc (← res2)
  match outcome with
  | .ok ts =>
      ({ g with state := { s1 with
          topics := sortStrings ts, isLoadingTopics := false, isLoading := false } },
       none)
  | .error msg =>
      ({ g with state := { s1 with
          error := some msg, isLoadingTopics := false, isLoading := false } },
       some msg)

/-- A complete `deleteTopic` call (`topic.store.ts` lines 167-188): on
success remove the topic from the local list and clear the selection if it
was selected; on failure record the error and re-throw. -/
def deleteTopicRun (g : GlobalState) (topic : String)
    (res : Except String MutationIpc) : GlobalState × Option String :=
  let s1 := { g.state with isLoadingTopics := true, isLoading := true, error := none }
  match (do checkMutation "Failed to delete topic" (← res) : Except String Unit) with
  | .ok _ =>
      ({ g with state := { s1 with
          topics := s1.topics.filter (fun t => t != topic)
          selectedTopic := if s1.selectedTopic = some topic then none else s1.selectedTopic
          isLoadingTopics := false, isLoading := false } }, none)
  | .error msg =>
      ({ g with state := { s1 with
          error := some msg, isLoadingTopics := false, isLoading := false } },
       some msg)

/-- A complete `produceMessage` call (`topic.store.ts` lines 223-239): no
state replacement beyond the loading flag; on failure record the error and
re-throw. -/
def produceMessageRun (g : GlobalState) (res : Except String MutationIpc) :
    GlobalState × Option String :=
  let s1 := { g.state with isLoading := true, error := none }
  match (do checkMutation "Failed to produce message" (← res) : Except String Unit) with
  | .ok _ => ({ g with state := { s1 with isLoading := false } }, none)
  | .error msg =>
      ({ g with state := { s1 with error := some msg, isLoading := false } }, some msg)

/-!
The encrypted connection-profile store
(`electron/services/connection.store.ts`).
-/

/-- Modelled from the spec: `KafkaConnection` lives in `shared/types`,
which is not part of the reviewed sources.  Per spec §3 a connection
profile carries an id, a display name, broker endpoints, optional
security/credential configuration (here a representative `color` field
stands in for the remaining payload fields, whose identity is irrelevant
to every claim) and the two timestamps. -/
structure KafkaConnection where
  id : String
  name : String
  brokers : List String
  color : Option String
  createdAt : Nat
  updatedAt : Nat
deriving DecidableEq, Repr

/-- Argument of `ConnectionStore.save`:
`Omit<KafkaConnection, 'id' | 'createdAt' | 'updatedAt'> & { id?: string }`. -/
structure ConnectionInput where
  id : Option String
  name : String
  brokers : List String
  color : Option String
deriving DecidableEq, Repr

/-- `connections[id] = savedConnection` on the persisted mapping
(replace-or-insert at a key). -/
def setConn : List (String × KafkaConnection) → String → KafkaConnection →
    List (String × KafkaConnection)
  | [], k, v => [(k, v)]
  | (k', v') :: rest, k, v =>
      if k' == k then (k, v) :: rest else (k', v') :: setConn rest k v

/-- `ConnectionStore.save` (`connection.store.ts` lines 96-114).  `now` is
the value of `Date.now()` during the call and `freshId` the value
`randomUUID()` would return if consulted (its uniqueness is a contract of
the UUID generator, assumed as a hypothesis where a claim needs it).
`connection.id || randomUUID()` uses JavaScript truthiness: the empty
string counts as absent.  `existing?.createdAt || now` likewise: a stored
`createdAt` of `0` would count as absent.  Returns the saved record and
the new mapping. -/
def ConnectionStore.save (conns : List (String × KafkaConnection))
    (c : ConnectionInput) (now : Nat) (freshId : String) :
    KafkaConnection × List (String × KafkaConnection) :=
  let id := match c.id with
    | some s => if s = "" then freshId else s
    | none => freshId
  let createdAt := match conns.lookup id with
    | some e => if e.createdAt = 0 then now else e.createdAt
    | none => now
  let saved : KafkaConnection :=
    { id := id, name := c.name, brokers := c.brokers, color := c.color
      createdAt := createdAt, updatedAt := now }
  (saved, setConn conns id saved)

/-- `ConnectionStore.get` (`connection.store.ts` lines 91-94). -/
def ConnectionStore.get (conns : List (String × KafkaConnection))
    (id : String) : Option KafkaConnection :=
  conns.lookup id

/-- State of the persisted store file as seen by the constructor's
pre-validation (`connection.store.ts` lines 60-75): absent, present and
structurally parsable as JSON, or present but failing `JSON.parse`
(e.g. encrypted under a now-unreachable key). -/
inductive FileState where
  | absent
  | parsable (conns : List (String × KafkaConnection))
  | unparsable
deriving DecidableEq, Repr

/-- The pre-validation step of the `ConnectionStore` constructor
(`connection.store.ts` lines 60-75): if the file exists, read it
(`readFileSync` is outside any try block for I/O purposes — a read
failure propagates, modelled by `readFails`); try `JSON.parse`; on parse
failure delete the file, swallowing any deletion error (`unlinkFails`).
Returns the file state handed to the `Store` constructor. -/
def preValidate (fs : FileState) (readFails unlinkFails : Bool) :
    Except String FileState :=
  match fs with
  | .absent => .ok .absent
  | .parsable conns =>
      if readFails then .error "read failed" else .ok (.parsable conns)
  | .unparsable =>
      if readFails then .error "read failed"
      else if unlinkFails then .ok .unparsable else .ok .absent

/-- Modelled from the spec: the third-party `electron-store` constructor
(`new Store` at `connection.store.ts` lines 77-83) is not part of the
reviewed sources.  Per spec §4.1 and §6: an absent file is created from
the defaults `{ connections: {} }` (empty mapping); a consumable file
yields its stored mapping; a file the reader cannot consume makes the
initialization fail (spec: "a subsequent store initialization may still
fail if swallowing was insufficient"). -/
def storeInit : FileState → Except String (List (String × KafkaConnection))
  | .absent => .ok []
  | .parsable conns => .ok conns
  | .unparsable => .error "store initialization failed"

/-- The full `ConnectionStore` constructor (`connection.store.ts`
lines 53-84): pre-validate the file, then open the `electron-store`.
Returns the file state after pre-validation together with the opened
mapping, or the error the constructor raises. -/
def constructStore (fs : FileState) (readFails unlinkFails : Bool) :
    Except String (FileState × List (String × KafkaConnection)) :=
  match preValidate fs readFails unlinkFails with
  | .error e => .error e
  | .ok fs' =>
      match storeInit fs' with
      | .error e => .error e
      | .ok conns => .ok (fs', conns)

/-!
Helper lemmas.
-/

/-- Deleting a key from an association list by filtering makes lookup of
that key fail. -/
theorem lookup_filter_bne (l : List (String × Nat)) (k : String) :
    (l.filter fun e => e.1 != k).lookup k = none := by
  induction l with
  | nil => rfl
  | cons e rest ih =>
      rcases e with ⟨k', v⟩
      by_cases h : k' = k
      · subst h
        simpa using ih
      · have hb : (k == k') = false := beq_eq_false_iff_ne.mpr (Ne.symm h)
        simp [List.filter_cons, List.lookup, h, hb, ih]

/-- `setConn` stores the record under the key. -/
theorem lookup_setConn_self (l : List (String × KafkaConnection))
    (k : String) (v : KafkaConnection) :
    (setConn l k v).lookup k = some v := by
  induction l with
  | nil => simp [setConn, List.lookup]
  | cons e rest ih =>
      rcases e with ⟨k', v'⟩
      by_cases h : k' = k
      · subst h
        simp [setConn, List.lookup]
      · have hb : (k == k') = false := beq_eq_false_iff_ne.mpr (Ne.symm h)
        simp [setConn, List.lookup, h, hb, ih]

/-- `setConn` leaves every other key untouched. -/
theorem lookup_setConn_ne (l : List (String × KafkaConnection))
    (k k' : String) (v : KafkaConnection) (h : k' ≠ k) :
    (setConn l k v).lookup k' = l.lookup k' := by
  have hb : (k' == k) = false := beq_eq_false_iff_ne.mpr h
  induction l with
  | nil => simp [setConn, List.lookup, hb]
  | cons e rest ih =>
      rcases e with ⟨k'', v''⟩
      by_cases hk : k'' = k
      · subst hk
        simp [setConn, List.lookup, hb]
      · simp [setConn, List.lookup, hk, ih]

/-- `loadMessagesSettle` never changes the request counter. -/
theorem loadMessagesSettle_preserves_counter (g : GlobalState) (token : Nat)
    (res : Except String MessagesIpc) :
    (loadMessagesSettle g token res).1.messageRequestId = g.messageRequestId := by
  unfold loadMessagesSettle
  by_cases h : token ≠ g.messageRequestId
  · simp [h]
  · rcases res with e | r
    · simp [h]
    · rcases r with ⟨s, d, err⟩ | msgs | msgs
      · cases s <;> simp [h]
      · simp [h]
      · simp [h]

/-- A settlement whose token is not the current counter value performs no
state mutation at all. -/
theorem loadMessagesSettle_stale_noop (g : GlobalState) (token : Nat)
    (res : Except String MessagesIpc) (h : token ≠ g.messageRequestId) :
    (loadMessagesSettle g token res).1 = g := by
  unfold loadMessagesSettle
  simp [h]

/-!
Claim theorems.
-/

/-- C5.  Atomic clearing on selection: for every state (in particular any
state with populated metadata/config/messages), `selectTopic` is a single
state transition after which `selectedTopic` holds the new value while
`topicMetadata`, `topicConfig` and `messages` are simultaneously empty;
every other field is untouched, so no observable state combines the new
topic with data from the previous topic. -/
theorem selectTopic_clears_atomically (s : TopicState) (t : Option String) :
    (selectTopic s t).selectedTopic = t ∧
    (selectTopic s t).topicMetadata = none ∧
    (selectTopic s t).topicConfig = [] ∧
    (selectTopic s t).messages = [] ∧
    (selectTopic s t).topics = s.topics ∧
    (selectTopic s t).messageToRepublish = s.messageToRepublish ∧
    (selectTopic s t).isLoading = s.isLoading ∧
    (selectTopic s t).isLoadingTopics = s.isLoadingTopics ∧
    (selectTopic s t).isLoadingMetadata = s.isLoadingMetadata ∧
    (selectTopic s t).isLoadingConfig = s.isLoadingConfig ∧
    (selectTopic s t).isLoadingMessages = s.isLoadingMessages ∧
    (selectTopic s t).error = s.error := by
  simp [selectTopic]

/-- C3.  Deduplication, single call per key: when no request for the
connection id is in flight, a first `loadTopics` invocation issues exactly
one physical remote call, and a second invocation arriving while the first
is still in flight issues no physical call, receives the very same pending
promise, and leaves the state untouched. -/
theorem loadTopics_dedup_single_call (g : GlobalState) (cid : String)
    (h : g.inFlight.lookup (requestKeyFor cid) = none) :
    (loadTopicsInvoke g cid).2.2 = true ∧
    (loadTopicsInvoke g cid).1.physicalCalls = g.physicalCalls + 1 ∧
    (loadTopicsInvoke (loadTopicsInvoke g cid).1 cid).2.2 = false ∧
    (loadTopicsInvoke (loadTopicsInvoke g cid).1 cid).2.1 =
      (loadTopicsInvoke g cid).2.1 ∧
    (loadTopicsInvoke (loadTopicsInvoke g cid).1 cid).1 =
      (loadTopicsInvoke g cid).1 := by
  simp [loadTopicsInvoke, h, List.lookup]

/-- Witness for C3 at a concrete input: the fresh in-flight map of
`initialGlobal` and connection id `c1`. -/
theorem loadTopics_dedup_single_call_witness :
    (loadTopicsInvoke (loadTopicsInvoke initialGlobal "c1").1 "c1").2.2 = false :=
  (loadTopics_dedup_single_call initialGlobal "c1" rfl).2.2.1

/-- C4.  Deduplication, key reusable after settlement: however a
deduplicated `loadTopics` call settles (fulfilment in any shape or
rejection), its entry is removed from the in-flight map, so a subsequent
`loadTopics` call for the same connection id issues a fresh physical
remote call. -/
theorem loadTopics_key_reusable_after_settlement (g : GlobalState)
    (cid : String) (res : Except String TopicsIpc) :
    (loadTopicsSettle g cid res).1.inFlight.lookup (requestKeyFor cid) = none ∧
    (loadTopicsInvoke (loadTopicsSettle g cid res).1 cid).2.2 = true ∧
    (loadTopicsInvoke (loadTopicsSettle g cid res).1 cid).1.physicalCalls =
      (loadTopicsSettle g cid res).1.physicalCalls + 1 := by
  have hf : (loadTopicsSettle g cid res).1.inFlight =
      g.inFlight.filter (fun e => e.1 != requestKeyFor cid) := by
    simp only [loadTopicsSettle]
    split <;> rfl
  have hl : (loadTopicsSettle g cid res).1.inFlight.lookup (requestKeyFor cid)
      = none := by
    rw [hf]
    exact lookup_filter_bne g.inFlight (requestKeyFor cid)
  refine ⟨hl, ?_, ?_⟩ <;>
    · unfold loadTopicsInvoke
      simp only [hl]

/-- The module context after issuing fenced call A and then fenced call B
(`loadMessages` entered twice, neither remote promise settled yet). -/
def afterIssueAB (g : GlobalState) : GlobalState :=
  (loadMessagesInvoke (loadMessagesInvoke g).1).1

/-- The fencing token held by the first-issued call A. -/
def tokenA (g : GlobalState) : Nat := (loadMessagesInvoke g).2

/-- The fencing token held by the second-issued call B. -/
def tokenB (g : GlobalState) : Nat :=
  (loadMessagesInvoke (loadMessagesInvoke g).1).2

/-- A settlement carrying the current token commits a legacy-shape message
payload. -/
theorem loadMessagesSettle_current_arr (g : GlobalState)
    (msgs : List KafkaMessage) :
    (loadMessagesSettle g g.messageRequestId
        (Except.ok (MessagesIpc.arr msgs))).1 =
      { g with state :=
          { g.state with messages := msgs, isLoadingMessages := false } } := by
  simp [loadMessagesSettle]

/-- C1.  Freshness-fencing, last-issued-wins: issue fenced call A, then
fenced call B before A settles.  Whichever settlement order occurs and
whatever each call's remote outcome is (any fulfilment shape or a
rejection), the final state is exactly the state produced by B's
settlement alone — A's settlement mutates nothing.  In general a
settlement whose token differs from the current request counter performs
no state mutation. -/
theorem loadMessages_last_issued_wins (g : GlobalState)
    (rA rB : Except String MessagesIpc) :
    (loadMessagesSettle (loadMessagesSettle (afterIssueAB g) (tokenA g) rA).1
        (tokenB g) rB).1 =
      (loadMessagesSettle (afterIssueAB g) (tokenB g) rB).1 ∧
    (loadMessagesSettle (loadMessagesSettle (afterIssueAB g) (tokenB g) rB).1
        (tokenA g) rA).1 =
      (loadMessagesSettle (afterIssueAB g) (tokenB g) rB).1 ∧
    ∀ (token : Nat) (r : Except String MessagesIpc),
      token ≠ g.messageRequestId → (loadMessagesSettle g token r).1 = g := by
  have hA : tokenA g ≠ (afterIssueAB g).messageRequestId := by
    show g.messageRequestId + 1 ≠ g.messageRequestId + 2
    omega
  have hstaleA : (loadMessagesSettle (afterIssueAB g) (tokenA g) rA).1 =
      afterIssueAB g :=
    loadMessagesSettle_stale_noop _ _ _ hA
  refine ⟨by rw [hstaleA], ?_, fun token r h =>
    loadMessagesSettle_stale_noop g token r h⟩
  apply loadMessagesSettle_stale_noop
  rw [loadMessagesSettle_preserves_counter]
  exact hA

/-- Witness for C1 at a concrete input: a settlement carrying token 5 while
the counter of `initialGlobal` is 0 mutates nothing. -/
theorem loadMessages_last_issued_wins_witness :
    (loadMessagesSettle initialGlobal 5 (Except.ok (MessagesIpc.arr []))).1 =
      initialGlobal :=
  (loadMessages_last_issued_wins initialGlobal (Except.ok (MessagesIpc.arr []))
    (Except.ok (MessagesIpc.arr []))).2.2 5 (Except.ok (MessagesIpc.arr []))
    (by decide)

/-- C2.  No stale error leakage: issue fenced call A then fenced call B;
B settles first with a successful message payload, then the superseded A
rejects.  The error field stays unset and the committed messages are B's.
In general a settlement whose token differs from the current counter
writes neither the error field nor the messages. -/
theorem loadMessages_no_stale_error_leakage (g : GlobalState)
    (msgs : List KafkaMessage) (e : String) :
    (loadMessagesSettle (loadMessagesSettle (afterIssueAB g) (tokenB g)
        (Except.ok (MessagesIpc.arr msgs))).1 (tokenA g)
        (Except.error e)).1.state.error = none ∧
    (loadMessagesSettle (loadMessagesSettle (afterIssueAB g) (tokenB g)
        (Except.ok (MessagesIpc.arr msgs))).1 (tokenA g)
        (Except.error e)).1.state.messages = msgs ∧
    ∀ (token : Nat) (r : Except String MessagesIpc),
      token ≠ g.messageRequestId →
        (loadMessagesSettle g token r).1.state.error = g.state.error ∧
        (loadMessagesSettle g token r).1.state.messages = g.state.messages := by
  have hA : tokenA g ≠ (afterIssueAB g).messageRequestId := by
    show g.messageRequestId + 1 ≠ g.messageRequestId + 2
    omega
  have hAstale : (loadMessagesSettle (loadMessagesSettle (afterIssueAB g)
        (tokenB g) (Except.ok (MessagesIpc.arr msgs))).1 (tokenA g)
        (Except.error e)).1 =
      (loadMessagesSettle (afterIssueAB g) (tokenB g)
        (Except.ok (MessagesIpc.arr msgs))).1 := by
    apply loadMessagesSettle_stale_noop
    rw [loadMessagesSettle_preserves_counter]
    exact hA
  have hB : (loadMessagesSettle (afterIssueAB g) (tokenB g)
        (Except.ok (MessagesIpc.arr msgs))).1 =
      { afterIssueAB g with state :=
          { (afterIssueAB g).state with
              messages := msgs, isLoadingMessages := false } } :=
    loadMessagesSettle_current_arr (afterIssueAB g) msgs
  refine ⟨?_, ?_, fun token r h =>
    ⟨by rw [loadMessagesSettle_stale_noop g token r h],
     by rw [loadMessagesSettle_stale_noop g token r h]⟩⟩
  · rw [hAstale, hB]
    rfl
  · rw [hAstale, hB]

/-- Witness for C2 at a concrete input: a stale settlement (token 3,
counter 0) leaves the error and messages of `initialGlobal` unchanged. -/
theorem loadMessages_no_stale_error_leakage_witness :
    (loadMessagesSettle initialGlobal 3 (Except.error "boom")).1.state.error =
        initialGlobal.state.error ∧
      (loadMessagesSettle initialGlobal 3
          (Except.error "boom")).1.state.messages =
        initialGlobal.state.messages :=
  (loadMessages_no_stale_error_leakage initialGlobal [] "x").2.2 3
    (Except.error "boom") (by decide)

/-- `loadTopicsSettle` never rejects the caller's promise: the catch block
of `loadTopics` does not re-throw. -/
theorem loadTopicsSettle_resolves (g : GlobalState) (cid : String)
    (res : Except String TopicsIpc) : (loadTopicsSettle g cid res).2 = none := by
  simp only [loadTopicsSettle]
  split <;> rfl

/-- `loadMessagesSettle` never rejects the caller's promise: the catch
block of `loadMessages` does not re-throw, and a stale settlement simply
returns. -/
theorem loadMessagesSettle_resolves (g : GlobalState) (token : Nat)
    (res : Except String MessagesIpc) :
    (loadMessagesSettle g token res).2 = none := by
  unfold loadMessagesSettle
  split
  · rfl
  · split <;> rfl

/-- C6 counterexample.  The claim quantifies over *each* state-store load
operation and *all three* result shapes, but `loadTopics` only normalizes
the explicit outcome record and the bare array: a loosely-typed object
holding the payload under a known field (no `success` flag) falls into
the `result as string[]` cast and `.sort()` throws, so an error is
recorded and the topics are not committed — the committed state differs
from the one committed for the equivalent bare payload. -/
theorem result_shape_counterexample :
    (loadTopicsRun initialGlobal "c"
        (Except.ok (TopicsIpc.holder ["a"]))).1.state.topics ≠
      (loadTopicsRun initialGlobal "c"
        (Except.ok (TopicsIpc.arr ["a"]))).1.state.topics ∧
    (loadTopicsRun initialGlobal "c"
        (Except.ok (TopicsIpc.holder ["a"]))).1.state.topics = [] ∧
    (loadTopicsRun initialGlobal "c"
        (Except.ok (TopicsIpc.holder ["a"]))).1.state.error ≠ none := by
  refine ⟨?_, rfl, ?_⟩ <;> decide

/-- C6 as amended.  `loadMessages` normalizes all three remote result
shapes to the identical committed message list for equivalent payload
content; `loadTopics` normalizes the explicit outcome record and the bare
payload to the identical committed (sorted) topic list, while the
loosely-typed payload-holder shape produces a recorded error instead; and
for both operations an explicit outcome record with `success=false`
always produces a recorded error and never commits a payload. -/
theorem result_shape_normalization_amended (g : GlobalState) (cid : String)
    (msgs : List KafkaMessage) (ts : List String)
    (dm : Option MessagesData) (dt : Option (List String)) (m : String) :
    (loadMessagesRun g (Except.ok (MessagesIpc.outcome true
        (some ⟨msgs⟩) none))).1.state.messages = msgs ∧
    (loadMessagesRun g
        (Except.ok (MessagesIpc.arr msgs))).1.state.messages = msgs ∧
    (loadMessagesRun g (Except.ok (MessagesIpc.holder
        (some msgs)))).1.state.messages = msgs ∧
    (loadTopicsSettle g cid (Except.ok (TopicsIpc.outcome true
        (some ts) none))).1.state.topics = sortStrings ts ∧
    (loadTopicsSettle g cid
        (Except.ok (TopicsIpc.arr ts))).1.state.topics = sortStrings ts ∧
    (loadTopicsSettle g cid (Except.ok
        (TopicsIpc.holder ts))).1.state.error ≠ none ∧
    (loadTopicsSettle g cid (Except.ok
        (TopicsIpc.holder ts))).1.state.topics = g.state.topics ∧
    (loadMessagesRun g (Except.ok (MessagesIpc.outcome false dm
        (some m)))).1.state.error = some m ∧
    (loadMessagesRun g (Except.ok (MessagesIpc.outcome false dm
        (some m)))).1.state.messages = g.state.messages ∧
    (loadMessagesRun g (Except.ok (MessagesIpc.outcome false dm
        none))).1.state.error = some "Failed to load messages" ∧
    (loadTopicsSettle g cid (Except.ok (TopicsIpc.outcome false dt
        (some m)))).1.state.error = some m ∧
    (loadTopicsSettle g cid (Except.ok (TopicsIpc.outcome false dt
        (some m)))).1.state.topics = g.state.topics := by
  refine ⟨?_, ?_, ?_, rfl, rfl, fun h => Option.noConfusion h, rfl,
      ?_, ?_, ?_, rfl, rfl⟩ <;>
    simp [loadMessagesRun, loadMessagesInvoke, loadMessagesSettle,
      loadTopicsSettle, topicsOfIpc]

/-- C9.  Read operations never reject: for every remote outcome —
fulfilment in any shape or rejection — the promises returned by
`loadTopics`, `loadTopicMetadata`, `loadTopicConfig` and `loadMessages`
resolve (rejection channel `none`); the mutating operations
`createTopic`, `deleteTopic` and `produceMessage` instead record the
error in state and re-throw it (rejection channel `some`). -/
theorem read_ops_never_reject (g : GlobalState) (cid topic : String)
    (token : Nat) (rt : Except String TopicsIpc)
    (rm : Except String MetadataIpc) (rc : Except String ConfigIpc)
    (rs : Except String MessagesIpc) (e : String)
    (r2 : Except String TopicsIpc) :
    (loadTopicsRun g cid rt).2 = none ∧
    (loadTopicsSettle g cid rt).2 = none ∧
    (loadTopicMetadataRun g rm).2 = none ∧
    (loadTopicConfigRun g rc).2 = none ∧
    (loadMessagesRun g rs).2 = none ∧
    (loadMessagesSettle g token rs).2 = none ∧
    (createTopicRun g (Except.error e) r2).2 = some e ∧
    (createTopicRun g (Except.error e) r2).1.state.error = some e ∧
    (createTopicRun g (Except.ok (MutationIpc.outcome false (some e))) r2).2 =
      some e ∧
    (deleteTopicRun g topic (Except.error e)).2 = some e ∧
    (deleteTopicRun g topic (Except.error e)).1.state.error = some e ∧
    (produceMessageRun g (Except.error e)).2 = some e ∧
    (produceMessageRun g (Except.error e)).1.state.error = some e := by
  refine ⟨?_, loadTopicsSettle_resolves g cid rt, ?_, ?_,
    loadMessagesSettle_resolves _ _ _, loadMessagesSettle_resolves _ _ _,
    rfl, rfl, rfl, rfl, rfl, rfl, rfl⟩
  · unfold loadTopicsRun
    split
    split
    · exact loadTopicsSettle_resolves _ _ _
    · rfl
  · rcases rm with e' | r
    · rfl
    · rcases r with ⟨s, d, err⟩ | m
      · cases s <;> rfl
      · rfl
  · rcases rc with e' | r
    · rfl
    · rcases r with ⟨s, d, err⟩ | c
      · cases s <;> rfl
      · rfl

/-- The three-save scenario of C7: a first save without an id (at time
`t0`, drawing fresh id `f`), then two saves carrying that id (at times
`t1` and `t2`; their fresh-id draws `f2`, `f3` are unused by the code).
Returns the three saved records. -/
def saveThrice (conns : List (String × KafkaConnection))
    (c1 c2 c3 : ConnectionInput) (t0 t1 t2 : Nat) (f f2 f3 : String) :
    KafkaConnection × KafkaConnection × KafkaConnection :=
  let r0 := ConnectionStore.save conns c1 t0 f
  let r1 := ConnectionStore.save r0.2 c2 t1 f2
  let r2 := ConnectionStore.save r1.2 c3 t2 f3
  (r0.1, r1.1, r2.1)

/-- C7.  Profile save identity semantics.  Hypotheses reflect the
environment: the UUID generator's draw `f` is unique (its contract) and
nonempty, the clock is positive and strictly increasing between the
second and third save.  The first save (id absent) stores the record
under the freshly generated id, distinct from every id already in the
store, with both timestamps set to the save time; the two subsequent
saves with that id preserve the original `createdAt` while `updatedAt`
strictly increases from the first of them to the second. -/
theorem profile_save_identity (conns : List (String × KafkaConnection))
    (n1 n2 n3 : String) (b1 b2 b3 : List String)
    (co1 co2 co3 : Option String) (t0 t1 t2 : Nat) (f f2 f3 : String)
    (hfresh : conns.lookup f = none) (hne : f ≠ "") (ht0 : 0 < t0)
    (ht12 : t1 < t2) :
    (saveThrice conns ⟨none, n1, b1, co1⟩ ⟨some f, n2, b2, co2⟩
        ⟨some f, n3, b3, co3⟩ t0 t1 t2 f f2 f3).1.id = f ∧
    conns.lookup (saveThrice conns ⟨none, n1, b1, co1⟩ ⟨some f, n2, b2, co2⟩
        ⟨some f, n3, b3, co3⟩ t0 t1 t2 f f2 f3).1.id = none ∧
    (saveThrice conns ⟨none, n1, b1, co1⟩ ⟨some f, n2, b2, co2⟩
        ⟨some f, n3, b3, co3⟩ t0 t1 t2 f f2 f3).1.createdAt = t0 ∧
    (saveThrice conns ⟨none, n1, b1, co1⟩ ⟨some f, n2, b2, co2⟩
        ⟨some f, n3, b3, co3⟩ t0 t1 t2 f f2 f3).1.updatedAt = t0 ∧
    (saveThrice conns ⟨none, n1, b1, co1⟩ ⟨some f, n2, b2, co2⟩
        ⟨some f, n3, b3, co3⟩ t0 t1 t2 f f2 f3).2.1.createdAt = t0 ∧
    (saveThrice conns ⟨none, n1, b1, co1⟩ ⟨some f, n2, b2, co2⟩
        ⟨some f, n3, b3, co3⟩ t0 t1 t2 f f2 f3).2.1.updatedAt = t1 ∧
    (saveThrice conns ⟨none, n1, b1, co1⟩ ⟨some f, n2, b2, co2⟩
        ⟨some f, n3, b3, co3⟩ t0 t1 t2 f f2 f3).2.2.createdAt = t0 ∧
    (saveThrice conns ⟨none, n1, b1, co1⟩ ⟨some f, n2, b2, co2⟩
        ⟨some f, n3, b3, co3⟩ t0 t1 t2 f f2 f3).2.2.updatedAt = t2 ∧
    (saveThrice conns ⟨none, n1, b1, co1⟩ ⟨some f, n2, b2, co2⟩
        ⟨some f, n3, b3, co3⟩ t0 t1 t2 f f2 f3).2.1.updatedAt <
      (saveThrice conns ⟨none, n1, b1, co1⟩ ⟨some f, n2, b2, co2⟩
        ⟨some f, n3, b3, co3⟩ t0 t1 t2 f f2 f3).2.2.updatedAt := by
  have ht0' : t0 ≠ 0 := Nat.pos_iff_ne_zero.mp ht0
  simp only [saveThrice, ConnectionStore.save, hfresh, hne, if_neg hne,
    lookup_setConn_self, ht0', ite_false]
  simp [hfresh, ht0', ht12, lookup_setConn_self]

/-- Witness for C7 at a concrete input: an empty store, fresh id `u`,
saves at times 1, 2 and 3; the third save still carries `createdAt = 1`. -/
theorem profile_save_identity_witness :
    (saveThrice [] ⟨none, "a", [], none⟩ ⟨some "u", "b", [], none⟩
        ⟨some "u", "c", [], none⟩ 1 2 3 "u" "v" "w").2.2.createdAt = 1 :=
  (profile_save_identity [] "a" "b" "c" [] [] [] none none none 1 2 3
    "u" "v" "w" rfl (by decide) (by decide) (by decide)).2.2.2.2.2.2.1

/-- C8.  Corrupted store recovery: a store file that fails the structural
parse is deleted by the pre-validation step before the store is opened,
construction does not raise, and the opened store holds the empty
connection mapping.  If the deletion itself fails, that I/O failure is
swallowed (pre-validation still succeeds, leaving the file in place) and
the outcome of construction is whatever the subsequent store
initialization produces. -/
theorem corrupted_store_recovery :
    constructStore FileState.unparsable false false =
      Except.ok (FileState.absent, []) ∧
    preValidate FileState.unparsable false false = Except.ok FileState.absent ∧
    preValidate FileState.unparsable false true =
      Except.ok FileState.unparsable ∧
    constructStore FileState.unparsable false true =
      Except.error "store initialization failed" ∧
    constructStore FileState.absent false false =
      Except.ok (FileState.absent, []) :=
  ⟨rfl, rfl, rfl, rfl, rfl⟩

/-- C10.  Save with an unknown or empty id: a save carrying a (nonempty)
id for which no record exists does not fail — it stores a new record
under that caller-supplied id with both timestamps set to the current
time; a save carrying the empty-string id falls back to a generated
fresh id (JavaScript `||` treats `""` as absent), and nothing is stored
under the empty key. -/
theorem save_unknown_or_empty_id (conns : List (String × KafkaConnection))
    (n : String) (b : List String) (co : Option String) (s fresh : String)
    (now : Nat) (hs : s ≠ "") (hnone : conns.lookup s = none)
    (hfresh : fresh ≠ "") :
    (ConnectionStore.save conns ⟨some s, n, b, co⟩ now fresh).1.id = s ∧
    (ConnectionStore.save conns ⟨some s, n, b, co⟩ now fresh).1.createdAt =
      now ∧
    (ConnectionStore.save conns ⟨some s, n, b, co⟩ now fresh).1.updatedAt =
      now ∧
    (ConnectionStore.save conns ⟨some s, n, b, co⟩ now fresh).2.lookup s =
      some (ConnectionStore.save conns ⟨some s, n, b, co⟩ now fresh).1 ∧
    (ConnectionStore.save conns ⟨some "", n, b, co⟩ now fresh).1.id = fresh ∧
    (ConnectionStore.save conns ⟨some "", n, b, co⟩ now fresh).2.lookup "" =
      conns.lookup "" := by
  simp [ConnectionStore.save, hs, hnone, lookup_setConn_self,
    lookup_setConn_ne _ _ _ _ (Ne.symm hfresh)]

/-- Witness for C10 at a concrete input: saving into an empty store with
the unknown id `x` stores the record under `x`. -/
theorem save_unknown_or_empty_id_witness :
    (ConnectionStore.save [] ⟨some "x", "a", [], none⟩ 1 "u").1.id = "x" :=
  (save_unknown_or_empty_id [] "a" [] none "x" "u" 1 (by decide) rfl
    (by decide)).1
